import Mathlib

/-!
Shallow embedding of the CVSCommon declarative configuration schema system
(`src/common/include/cvs/common/config.hpp`).

The C++ header defines, per schema type, a family of `FieldDescriptor`
template specializations (seven field shapes), a per-type descriptor
registry, `make` (build a typed instance from a `boost::property_tree`),
and `describe`/`describeFields` (render a textual schema description).

Modelling choices:
* `boost::property_tree::ptree` is embedded as `PTree`: a data string plus
  an ordered list of `(key, subtree)` children.  The boost accessors used
  by the header are embedded with boost's actual semantics:
  `get<T>(key)` fails on a missing key or unconvertible data,
  `get(key, default)` returns the default when the key is missing or the
  data is unconvertible (it never fails), and `get_optional<T>(key)`
  returns `none` when the key is missing or the data is unconvertible.
* Field declarations are embedded as `FieldSpec` (name, description,
  base-type text, kind); the seven template specializations become the
  seven constructors of `FieldKind`.
* A schema instance is an association list `Inst` from field names to
  `FieldVal`; `set` mutating `config.*pointer` becomes an update of the
  entry with the field's name.
* Scalar leaf types are restricted to a representative closed universe
  `Ty` (int and string) with an executable conversion function mirroring
  boost's stream translator (integer parse / identity on strings).
* Exceptions converted to a `CVSOutcome` at the `make` boundary become
  `Except CVSError`.  `CVSError` is modelled from the spec:
  `cvs/common/general.hpp` (`CVSOutcome`, `CVS_RETURN_WITH_NESTED`) is not
  part of the sources; per the spec an outcome failure carries a
  human-readable message and may wrap an inner failure as a chained cause.
-/

namespace CVS

/-- Representative closed universe of scalar leaf types. -/
inductive Ty : Type where
  | tInt : Ty
  | tStr : Ty
deriving DecidableEq, Repr

/-- A converted scalar value. -/
inductive Value : Type where
  | vInt : Int → Value
  | vStr : String → Value
deriving DecidableEq, Repr

/-- Decimal digit value of a character, if it is a digit. -/
def digit? (c : Char) : Option Nat :=
  if 48 ≤ c.toNat ∧ c.toNat ≤ 57 then some (c.toNat - 48) else none

/-- Accumulate a decimal numeral; fails on any non-digit character. -/
def natOfDigits : List Char → Nat → Option Nat
  | [], acc => some acc
  | c :: cs, acc =>
    match digit? c with
    | some d => natOfDigits cs (acc * 10 + d)
    | none => none

/-- Executable integer parse of a whole string (optional leading minus then
digits), mirroring the all-or-nothing behaviour of boost's stream
translator for integral types: any trailing garbage makes the conversion
fail. -/
def strToInt? (s : String) : Option Int :=
  match s.data with
  | [] => none
  | '-' :: [] => none
  | '-' :: cs => (natOfDigits cs 0).map (fun n => -(n : Int))
  | cs => (natOfDigits cs 0).map (fun n => (n : Int))

/-- Conversion of a raw leaf data string to a typed value; `none` models a
failed boost translator conversion. -/
def convert : Ty → String → Option Value
  | .tInt, s => (strToInt? s).map Value.vInt
  | .tStr, s => some (Value.vStr s)

/-- Model of `boost::property_tree::ptree`: a node holds a data string and an
ordered list of `(key, child)` pairs. -/
inductive PTree : Type where
  | node : String → List (String × PTree) → PTree

/-- The node's own data string. -/
def PTree.data : PTree → String
  | .node d _ => d

/-- The node's ordered children. -/
def PTree.children : PTree → List (String × PTree)
  | .node _ cs => cs

/-- Model of `Properties\x7b\x7d`: a default-constructed, empty property tree. -/
def PTree.empty : PTree := .node "" []

/-- First direct child with the given key (`ptree.find` /
single-segment `get_child` path resolution). -/
def PTree.findChild (t : PTree) (key : String) : Option PTree :=
  (t.children.find? (fun p => p.1 == key)).map (fun p => p.2)

/-- Modelled from the spec: `CVSOutcome`'s failure state
(`cvs/common/general.hpp` is not among the sources).  A failure carries a
human-readable message and may wrap an inner failure as a chained cause. -/
inductive CVSError : Type where
  | err : String → CVSError
  | nested : String → CVSError → CVSError
deriving DecidableEq, Repr

/-- Model of `ptree.get<T>(key)`: fails when the key is missing (`ptree_bad_path`)
or the data is not convertible (`ptree_bad_data`). -/
def PTree.getReq (t : PTree) (ty : Ty) (key : String) : Except CVSError Value :=
  match t.findChild key with
  | none => .error (.err ("No such node (" ++ key ++ ")"))
  | some c =>
    match convert ty c.data with
    | none => .error (.err ("conversion of data to type failed: " ++ c.data))
    | some v => .ok v

/-- Model of `ptree.get(key, default)`: the default when the key is missing or the
data is not convertible; never fails. -/
def PTree.getOr (t : PTree) (ty : Ty) (key : String) (dflt : Value) : Value :=
  match t.findChild key with
  | some c => (convert ty c.data).getD dflt
  | none => dflt

/-- Model of `ptree.get_optional<T>(key)`: `none` when the key is missing or the
data is not convertible. -/
def PTree.getOpt (t : PTree) (ty : Ty) (key : String) : Option Value :=
  (t.findChild key).bind (fun c => convert ty c.data)

mutual
/-- The seven `FieldDescriptor` template specializations of the header,
as a closed kind.  `nestedCfg`/`optNested` carry the nested schema type's
name (used in its `make` error message) and its descriptor list. -/
inductive FieldKind : Type where
  | required : Ty → FieldKind
  | withDefault : Ty → Value → FieldKind
  | opt : Ty → FieldKind
  | vec : Ty → FieldKind
  | optVec : Ty → FieldKind
  | nestedCfg : String → FieldList → FieldKind
  | optNested : String → FieldList → FieldKind
deriving DecidableEq, Repr

/-- One field declaration: field name, description text, base-type text,
and kind. -/
inductive FieldSpec : Type where
  | mk : String → String → String → FieldKind → FieldSpec
deriving DecidableEq, Repr

/-- The ordered descriptor registry of one schema type
(`Self::descriptors()`, populated in declaration order). -/
inductive FieldList : Type where
  | nil : FieldList
  | cons : FieldSpec → FieldList → FieldList
deriving DecidableEq, Repr
end

/-- The declared field name of a descriptor. -/
def FieldSpec.name : FieldSpec → String
  | .mk n _ _ _ => n

/-- The kind of a descriptor. -/
def FieldSpec.kind : FieldSpec → FieldKind
  | .mk _ _ _ k => k

/-- Flag `has_default()` of each descriptor variant. -/
def hasDefault : FieldKind → Bool
  | .withDefault _ _ => true
  | _ => false

/-- Flag `is_optional()` of each descriptor variant.  Note that the plain
vector variant reports `true` (header line 156). -/
def isOptional : FieldKind → Bool
  | .opt _ => true
  | .vec _ => true
  | .optVec _ => true
  | .optNested _ _ => true
  | _ => false

mutual
/-- Runtime value stored in one field of a schema instance. -/
inductive FieldVal : Type where
  | scalar : Value → FieldVal
  | optScalar : Option Value → FieldVal
  | vecVal : List Value → FieldVal
  | optVecVal : Option (List Value) → FieldVal
  | nestedVal : Inst → FieldVal
  | optNestedNone : FieldVal
  | optNestedSome : Inst → FieldVal
deriving DecidableEq, Repr

/-- A schema instance: ordered association of field names to values. -/
inductive Inst : Type where
  | nil : Inst
  | cons : String → FieldVal → Inst → Inst
deriving DecidableEq, Repr
end

/-- First entry with the given field name. -/
def Inst.lookup : Inst → String → Option FieldVal
  | .nil, _ => none
  | .cons n v r, key => if n = key then some v else Inst.lookup r key

/-- Assignment through the field's member pointer: replace the value of
the entry (unique, by the schema invariant) with the given name. -/
def Inst.update : Inst → String → FieldVal → Inst
  | .nil, _, _ => .nil
  | .cons n v r, key, w =>
    if n = key then .cons n w (Inst.update r key w) else .cons n v (Inst.update r key w)

/-- Zero value of a scalar type, standing for the default-constructed
member (`std::string{}`; an indeterminate arithmetic scalar, which no
successful `make` ever exposes because required and defaulted fields
always assign). -/
def zeroValue : Ty → Value
  | .tInt => .vInt 0
  | .tStr => .vStr ""

mutual
/-- Default-constructed value of a field (`Self result;` member state
before any `set` runs): optionals are empty, vectors empty, nested
configs recursively default-constructed. -/
def defaultVal : FieldKind → FieldVal
  | .required ty => .scalar (zeroValue ty)
  | .withDefault ty _ => .scalar (zeroValue ty)
  | .opt _ => .optScalar none
  | .vec _ => .vecVal []
  | .optVec _ => .optVecVal none
  | .nestedCfg _ fs => .nestedVal (defaultInst fs)
  | .optNested _ _ => .optNestedNone

/-- Default-constructed instance for a descriptor list. -/
def defaultInst : FieldList → Inst
  | .nil => .nil
  | .cons (.mk name _ _ k) fs => .cons name (defaultVal k) (defaultInst fs)
end

/-- The nested-config `set`'s defaultability scan (header lines 228-234):
every descriptor of the nested type reports `has_default()` or
`is_optional()`. -/
def allDefaultOrOptional : FieldList → Bool
  | .nil => true
  | .cons f fs => (hasDefault f.kind || isOptional f.kind) && allDefaultOrOptional fs

/-- Element-wise conversion of a vector field's children, in tree order;
the first failing conversion aborts (`iter.second.get_value<T>()`). -/
def readElems (ty : Ty) : List (String × PTree) → Except CVSError (List Value)
  | [] => .ok []
  | (_, c) :: rest =>
    match convert ty c.data with
    | none => .error (.err ("conversion of data to type failed: " ++ c.data))
    | some v =>
      match readElems ty rest with
      | .ok vs => .ok (v :: vs)
      | .error e => .error e

/-- The `make(const Properties&)` boundary wrap (header lines 328-331):
an escaping error is rewrapped with a message naming the schema type. -/
def wrapInit (name : String) : Except CVSError Inst → Except CVSError Inst
  | .ok i => .ok i
  | .error e => .error (.nested ("Can't init config " ++ name) e)

mutual
/-- Dispatch of `FieldDescriptor::set` over the variants (header lines 67-69, 97-99,
127-131, 158-164, 191-200, 227-245, 274-280), dispatched on the kind. -/
def setField : FieldSpec → Inst → PTree → Except CVSError Inst
  | .mk name _ _ (.required ty), inst, t =>
    match t.getReq ty name with
    | .error e => .error e
    | .ok v => .ok (inst.update name (.scalar v))
  | .mk name _ _ (.withDefault ty dflt), inst, t =>
    .ok (inst.update name (.scalar (t.getOr ty name dflt)))
  | .mk name _ _ (.opt ty), inst, t =>
    match t.getOpt ty name with
    | some v => .ok (inst.update name (.optScalar (some v)))
    | none => .ok inst
  | .mk name _ _ (.vec ty), inst, t =>
    match t.findChild name with
    | none => .error (.err ("No such node (" ++ name ++ ")"))
    | some c =>
      match readElems ty c.children with
      | .error e => .error e
      | .ok vs => .ok (inst.update name (.vecVal vs))
  | .mk name _ _ (.optVec ty), inst, t =>
    match t.findChild name with
    | none => .ok (inst.update name (.optVecVal none))
    | some c =>
      match readElems ty c.children with
      | .error e => .error e
      | .ok vs => .ok (inst.update name (.optVecVal (some vs)))
  | .mk name _ _ (.nestedCfg sname sub), inst, t =>
    if allDefaultOrOptional sub then
      match t.findChild name with
      | some c =>
        match wrapInit sname (runFields sub (defaultInst sub) c) with
        | .ok i => .ok (inst.update name (.nestedVal i))
        | .error e => .error e
      | none =>
        match wrapInit sname (runFields sub (defaultInst sub) PTree.empty) with
        | .ok i => .ok (inst.update name (.nestedVal i))
        | .error e => .error e
    else
      match t.findChild name with
      | none => .error (.err ("No such node (" ++ name ++ ")"))
      | some c =>
        match wrapInit sname (runFields sub (defaultInst sub) c) with
        | .ok i => .ok (inst.update name (.nestedVal i))
        | .error e => .error e
  | .mk name _ _ (.optNested sname sub), inst, t =>
    match t.findChild name with
    | some c =>
      match wrapInit sname (runFields sub (defaultInst sub) c) with
      | .ok i => .ok (inst.update name (.optNestedSome i))
      | .error e => .error e
    | none => .ok (inst.update name .optNestedNone)

/-- The descriptor loop of `make(const Properties&)` (header lines
322-325): run every descriptor's `set` in declaration order; the first
failure aborts. -/
def runFields : FieldList → Inst → PTree → Except CVSError Inst
  | .nil, inst, _ => .ok inst
  | .cons f fs, inst, t =>
    match setField f inst t with
    | .ok inst2 => runFields fs inst2 t
    | .error e => .error e
end

/-- Model of `T::make(const Properties&)` for a schema type with the given name
and descriptor list: default-construct, run every `set`, and rewrap any
failure with the schema type's name. -/
def makeFrom (name : String) (fields : FieldList) (t : PTree) : Except CVSError Inst :=
  wrapInit name (runFields fields (defaultInst fields) t)

/-- A schema type: its name, description text, and descriptor registry. -/
structure Schema where
  name : String
  descr : String
  fields : FieldList

/-- Model of `make(const Properties&)` of a schema type. -/
def make (s : Schema) (t : PTree) : Except CVSError Inst :=
  makeFrom s.name s.fields t

/-- Left-aligned space padding to a minimum width, as `fmt`'s `{: <w}`. -/
def pad (s : String) (w : Nat) : String :=
  s ++ String.mk (List.replicate (w - s.length) ' ')

/-- Rendering of a default value by `fmt::format` (decimal for int,
verbatim for string). -/
def Value.fmt : Value → String
  | .vInt n => toString n
  | .vStr s => s

/-- One line in `BaseFieldDescriptor::description_format`
(`"{}{: <10} {: <10} {: <9} {: <10} Description: {}"`). -/
def descLine (pfx name baseType col4 col5 descr : String) : String :=
  pfx ++ pad name 10 ++ " " ++ pad baseType 10 ++ " " ++ pad col4 9 ++ " " ++
    pad col5 10 ++ " Description: " ++ descr

mutual
/-- Dispatch of `FieldDescriptor::describe(prefix)` over the variants (header lines
71-76, 101-106, 133-138, 166-171, 202-207, 247-254, 282-290). -/
def describeField : FieldSpec → String → String
  | .mk name descr baseType (.required _), pfx =>
    descLine pfx name baseType "" "" descr
  | .mk name descr baseType (.withDefault _ d), pfx =>
    descLine pfx name baseType "Default: " d.fmt descr
  | .mk name descr baseType (.opt _), pfx =>
    descLine pfx name baseType "Optional" "" descr
  | .mk name descr baseType (.vec _), pfx =>
    descLine pfx name baseType "" "" descr
  | .mk name descr baseType (.optVec _), pfx =>
    descLine pfx name baseType "Optional" "" descr
  | .mk name descr baseType (.nestedCfg _ sub), pfx =>
    descLine pfx name baseType "" "" descr ++
      "\n" ++ pfx ++ name ++ " fields:" ++ describeFields sub ("\n" ++ pfx ++ " ")
  | .mk name descr baseType (.optNested _ sub), pfx =>
    descLine pfx name baseType "Optional" "" descr ++
      "\n" ++ pfx ++ name ++ " fields:" ++ describeFields sub ("\n" ++ pfx ++ " ")

/-- Model of `describeFields(prefix)` (header lines 341-347): concatenation, per
descriptor in declaration order, of the prefix and the descriptor's
`describe(" ")`. -/
def describeFields : FieldList → String → String
  | .nil, _ => ""
  | .cons f fs, pfx => pfx ++ describeField f " " ++ describeFields fs pfx
end

/-- Model of `describe()` (header lines 334-339). -/
def describeCfg (s : Schema) : String :=
  s.name ++ "\nDescription: " ++ s.descr ++ "\nFields:" ++ describeFields s.fields "\n"

/-- Decidable equality for `Except`, used to evaluate concrete outcomes. -/
instance {e a : Type} [DecidableEq e] [DecidableEq a] : DecidableEq (Except e a) := fun x y =>
  match x, y with
  | .ok u, .ok v =>
    if h : u = v then .isTrue (congrArg Except.ok h)
    else .isFalse (fun he => h (Except.ok.inj he))
  | .ok _, .error _ => .isFalse (fun he => Except.noConfusion he)
  | .error _, .ok _ => .isFalse (fun he => Except.noConfusion he)
  | .error u, .error v =>
    if h : u = v then .isTrue (congrArg Except.error h)
    else .isFalse (fun he => h (Except.error.inj he))

/-- Classifier for the spec's phrase "defaultable or optional": the field
shapes that genuinely tolerate an absent key (scalar with a declared
default, optional scalar, optional vector, optional nested config). -/
def tolerantKind : FieldKind → Bool
  | .withDefault _ _ => true
  | .opt _ => true
  | .optVec _ => true
  | .optNested _ _ => true
  | _ => false

/-- Every field of the list is of a defaulted or optional shape. -/
def allTolerant : FieldList → Bool
  | .nil => true
  | .cons f fs => tolerantKind f.kind && allTolerant fs

/-- Discriminator of the plain (non-optional) vector shape. -/
def isVecKind : FieldKind → Bool
  | .vec _ => true
  | _ => false

/-- Some field of the list is a plain (non-optional) vector field. -/
def containsVec : FieldList → Bool
  | .nil => false
  | .cons f fs => isVecKind f.kind || containsVec fs

/-- Updating one field leaves the entries of every other field name
untouched. -/
theorem lookup_update_ne : ∀ (i : Inst) (key n : String) (w : FieldVal), n ≠ key →
    Inst.lookup (Inst.update i key w) n = Inst.lookup i n
  | .nil, _, _, _, _ => rfl
  | .cons m v r, key, n, w, h => by
    have ih := lookup_update_ne r key n w h
    by_cases hm : m = key <;> by_cases hmn : m = n <;>
      simp_all [Inst.update, Inst.lookup]

/-- A field of a defaulted or optional shape succeeds on the empty tree. -/
theorem setField_tolerant_empty : ∀ (f : FieldSpec) (inst : Inst),
    tolerantKind f.kind = true → ∃ j, setField f inst PTree.empty = .ok j
  | .mk n _ _ (.withDefault _ v), inst, _ => ⟨inst.update n (.scalar v), rfl⟩
  | .mk _ _ _ (.opt _), inst, _ => ⟨inst, rfl⟩
  | .mk n _ _ (.optVec _), inst, _ => ⟨inst.update n (.optVecVal none), rfl⟩
  | .mk n _ _ (.optNested _ _), inst, _ => ⟨inst.update n .optNestedNone, rfl⟩
  | .mk _ _ _ (.required _), _, h => absurd h (by simp [tolerantKind, FieldSpec.kind])
  | .mk _ _ _ (.vec _), _, h => absurd h (by simp [tolerantKind, FieldSpec.kind])
  | .mk _ _ _ (.nestedCfg _ _), _, h => absurd h (by simp [tolerantKind, FieldSpec.kind])

/-- The descriptor loop succeeds on the empty tree when every field is of
a defaulted or optional shape. -/
theorem runFields_tolerant_empty : ∀ (fs : FieldList) (inst : Inst),
    allTolerant fs = true → ∃ i, runFields fs inst PTree.empty = .ok i
  | .nil, inst, _ => ⟨inst, rfl⟩
  | .cons f fs, inst, h => by
    rw [allTolerant, Bool.and_eq_true] at h
    obtain ⟨j, hj⟩ := setField_tolerant_empty f inst h.1
    obtain ⟨i, hi⟩ := runFields_tolerant_empty fs j h.2
    exact ⟨i, by simp [runFields, hj, hi]⟩

/-- A defaulted or optional shape reports `has_default() || is_optional()`. -/
theorem tolerant_flag (k : FieldKind) (h : tolerantKind k = true) :
    (hasDefault k || isOptional k) = true := by
  cases k <;> simp_all [tolerantKind, hasDefault, isOptional]

/-- A list of defaulted or optional fields passes the code's
flag-based defaultability scan. -/
theorem allTolerant_allDefaultOrOptional : ∀ (fs : FieldList), allTolerant fs = true →
    allDefaultOrOptional fs = true
  | .nil, _ => rfl
  | .cons f fs, h => by
    rw [allTolerant, Bool.and_eq_true] at h
    simp [allDefaultOrOptional, tolerant_flag _ h.1, allTolerant_allDefaultOrOptional fs h.2]

/-- A flag-reported defaultable/optional field that is not a plain vector
is of a genuinely tolerant shape. -/
theorem flagged_not_vec_tolerant (k : FieldKind)
    (hflag : (hasDefault k || isOptional k) = true) (hnv : isVecKind k = false) :
    tolerantKind k = true := by
  cases k <;> simp_all [hasDefault, isOptional, isVecKind, tolerantKind]

/-- A plain vector field's `set` fails on the empty tree: `get_child`
finds no node for the key. -/
theorem setField_vec_empty (n d b : String) (ty : Ty) (inst : Inst) :
    setField (.mk n d b (.vec ty)) inst PTree.empty
      = .error (.err ("No such node (" ++ n ++ ")")) := rfl

/-- On the empty tree, a descriptor list that passes the flag-based scan
but contains a plain vector field makes the descriptor loop fail. -/
theorem runFields_flagged_vec_empty : ∀ (fs : FieldList) (inst : Inst),
    allDefaultOrOptional fs = true → containsVec fs = true →
    ∃ e, runFields fs inst PTree.empty = .error e
  | .nil, _, _, hvec => absurd hvec (by simp [containsVec])
  | .cons f fs, inst, hflag, hvec => by
    rw [allDefaultOrOptional, Bool.and_eq_true] at hflag
    rw [containsVec, Bool.or_eq_true] at hvec
    by_cases hv : isVecKind f.kind = true
    · obtain ⟨m, d, b, k⟩ := f
      cases k <;> simp [isVecKind, FieldSpec.kind] at hv
      exact ⟨.err ("No such node (" ++ m ++ ")"), by simp [runFields, setField_vec_empty]⟩
    · have ht : tolerantKind f.kind = true :=
        flagged_not_vec_tolerant _ hflag.1 (by simpa using hv)
      have hcv : containsVec fs = true := by
        rcases hvec with h | h
        · exact absurd h hv
        · exact h
      obtain ⟨j, hj⟩ := setField_tolerant_empty f inst ht
      obtain ⟨e, he⟩ := runFields_flagged_vec_empty fs j hflag.2 hcv
      exact ⟨e, by simp [runFields, hj, he]⟩

/-- C1: if a field descriptor's `set` fails during `make(tree)` (the
descriptor loop aborts with error `e`), then `make` returns a failed
outcome whose message names the enclosing schema type and chains the
original failure `e` as its cause.  Since an `Except.error` carries no
instance, no partially populated instance is exposed: `make` either
fully succeeds or fails atomically. -/
theorem make_wraps_field_failure (s : Schema) (t : PTree) (e : CVSError)
    (h : runFields s.fields (defaultInst s.fields) t = .error e) :
    make s t = Except.error (.nested ("Can't init config " ++ s.name) e) := by
  simp [make, makeFrom, h, wrapInit]

/-- Witness for C1: a schema `S` with a required `host` field, built from
the empty tree. -/
theorem make_wraps_field_failure_witness :
    make ⟨"S", "c", .cons (.mk "host" "h" "string" (.required .tStr)) .nil⟩ PTree.empty
      = Except.error (.nested "Can't init config S" (.err "No such node (host)")) :=
  make_wraps_field_failure
    ⟨"S", "c", .cons (.mk "host" "h" "string" (.required .tStr)) .nil⟩
    PTree.empty (.err "No such node (host)") rfl

/-- C2 counterexample: a defaulted field `port : int` (default 7), key
`port` present with unconvertible data `abc`: `set` does not raise an
error; it succeeds and silently assigns the declared default (boost's
`get(key, default)` swallows the conversion failure). -/
theorem default_scalar_unconvertible_counterexample :
    (PTree.node "" [("port", PTree.node "abc" [])]).findChild "port"
        = some (PTree.node "abc" []) ∧
    convert .tInt "abc" = none ∧
    setField (.mk "port" "p" "int" (.withDefault .tInt (.vInt 7)))
        (.cons "port" (.scalar (.vInt 0)) .nil)
        (PTree.node "" [("port", PTree.node "abc" [])])
      = .ok (.cons "port" (.scalar (.vInt 7)) .nil) :=
  ⟨rfl, rfl, rfl⟩

/-- C2 amended: for a scalar field with a declared default, if the key is
present but its leaf value is not convertible to the declared type, `set`
succeeds and silently assigns the declared default (it does not raise a
`TypeConversionError`). -/
theorem default_scalar_unconvertible_assigns_default
    (n d b : String) (ty : Ty) (dflt : Value) (inst : Inst) (t c : PTree)
    (hp : t.findChild n = some c) (hbad : convert ty c.data = none) :
    setField (.mk n d b (.withDefault ty dflt)) inst t
      = .ok (inst.update n (.scalar dflt)) := by
  simp [setField, PTree.getOr, hp, hbad]

/-- Witness for the amended C2 at the concrete counterexample input. -/
theorem default_scalar_unconvertible_assigns_default_witness :
    setField (.mk "port" "p" "int" (.withDefault .tInt (.vInt 7)))
        (.cons "port" (.scalar (.vInt 0)) .nil)
        (PTree.node "" [("port", PTree.node "abc" [])])
      = .ok (.cons "port" (.scalar (.vInt 7)) .nil) :=
  default_scalar_unconvertible_assigns_default "port" "p" "int" .tInt (.vInt 7)
    (.cons "port" (.scalar (.vInt 0)) .nil)
    (PTree.node "" [("port", PTree.node "abc" [])]) (PTree.node "abc" []) rfl rfl

/-- C3 counterexample: an optional field `delay : int`, key `delay`
present with unconvertible data `xyz`: `set` does not fail; it succeeds
and leaves the field empty (boost's `get_optional` returns an empty
optional on a conversion failure, and the code only assigns when the
optional is engaged). -/
theorem opt_scalar_unconvertible_counterexample :
    (PTree.node "" [("delay", PTree.node "xyz" [])]).findChild "delay"
        = some (PTree.node "xyz" []) ∧
    convert .tInt "xyz" = none ∧
    setField (.mk "delay" "p" "int" (.opt .tInt)) (.cons "delay" (.optScalar none) .nil)
        (PTree.node "" [("delay", PTree.node "xyz" [])])
      = .ok (.cons "delay" (.optScalar none) .nil) :=
  ⟨rfl, rfl, rfl⟩

/-- C3 amended: for an optional scalar field, `set` never fails.  If the
key is present with a convertible value it assigns that value; if the key
is absent or present with a non-convertible value it leaves the field
untouched (hence empty on the default-constructed instance `make` uses),
rather than raising an error in the non-convertible case. -/
theorem opt_scalar_set_eq (n d b : String) (ty : Ty) (inst : Inst) (t : PTree) :
    setField (.mk n d b (.opt ty)) inst t =
      .ok (match t.getOpt ty n with
           | some v => inst.update n (.optScalar (some v))
           | none => inst) := by
  cases h : t.getOpt ty n <;> simp [setField, h]

/-- C4: a plain (non-optional) vector field reports
`is_optional() == true` in its metadata, yet an absent key makes its
`set` fail with a missing-node error. -/
theorem vec_absent_errors_though_optional
    (n d b : String) (ty : Ty) (inst : Inst) (t : PTree) (habs : t.findChild n = none) :
    isOptional (.vec ty) = true ∧
    setField (.mk n d b (.vec ty)) inst t
      = .error (.err ("No such node (" ++ n ++ ")")) :=
  ⟨rfl, by simp [setField, habs]⟩

/-- Witness for C4: vector field `ids` and a tree without that key. -/
theorem vec_absent_errors_though_optional_witness :
    isOptional (.vec .tInt) = true ∧
    setField (.mk "ids" "p" "int" (.vec .tInt)) (.cons "ids" (.vecVal []) .nil)
        (PTree.node "" [("other", PTree.node "1" [])])
      = .error (.err ("No such node (" ++ "ids" ++ ")")) :=
  vec_absent_errors_though_optional "ids" "p" "int" .tInt
    (.cons "ids" (.vecVal []) .nil) (PTree.node "" [("other", PTree.node "1" [])]) rfl

/-- C5 counterexample: an optional vector field `tags` and a tree without
that key: `set` succeeds but assigns `std::nullopt` (an empty optional,
no collection), not an engaged empty collection. -/
theorem opt_vec_absent_counterexample :
    (PTree.node "" []).findChild "tags" = none ∧
    setField (.mk "tags" "p" "string" (.optVec .tStr)) (.cons "tags" (.optVecVal none) .nil)
        (PTree.node "" [])
      = .ok (.cons "tags" (.optVecVal none) .nil) ∧
    Inst.lookup (.cons "tags" (.optVecVal none) .nil) "tags"
      ≠ some (.optVecVal (some [])) :=
  ⟨rfl, rfl, by decide⟩

/-- C5 amended: for an optional vector field, an absent key causes `set`
to succeed and assign an empty optional (`std::nullopt`, holding no
collection) to the field, not a failure. -/
theorem opt_vec_absent_assigns_empty_optional
    (n d b : String) (ty : Ty) (inst : Inst) (t : PTree) (habs : t.findChild n = none) :
    setField (.mk n d b (.optVec ty)) inst t = .ok (inst.update n (.optVecVal none)) := by
  simp [setField, habs]

/-- Witness for the amended C5 at the concrete counterexample input. -/
theorem opt_vec_absent_assigns_empty_optional_witness :
    setField (.mk "tags" "p" "string" (.optVec .tStr)) (.cons "tags" (.optVecVal none) .nil)
        (PTree.node "" [])
      = .ok (.cons "tags" (.optVecVal none) .nil) :=
  opt_vec_absent_assigns_empty_optional "tags" "p" "string" .tStr
    (.cons "tags" (.optVecVal none) .nil) (PTree.node "" []) rfl

/-- C6: for a scalar field with a declared default, a tree lacking the
field's key makes `set` succeed and assign exactly the declared default
value. -/
theorem default_scalar_absent_assigns_default
    (n d b : String) (ty : Ty) (dflt : Value) (inst : Inst) (t : PTree)
    (habs : t.findChild n = none) :
    setField (.mk n d b (.withDefault ty dflt)) inst t
      = .ok (inst.update n (.scalar dflt)) := by
  simp [setField, PTree.getOr, habs]

/-- Witness for C6: defaulted field `port` (default 8080) and the empty
tree. -/
theorem default_scalar_absent_assigns_default_witness :
    setField (.mk "port" "p" "int" (.withDefault .tInt (.vInt 8080)))
        (.cons "port" (.scalar (.vInt 0)) .nil) PTree.empty
      = .ok (.cons "port" (.scalar (.vInt 8080)) .nil) :=
  default_scalar_absent_assigns_default "port" "p" "int" .tInt (.vInt 8080)
    (.cons "port" (.scalar (.vInt 0)) .nil) PTree.empty rfl

/-- C7: for a nested-schema field whose nested type has only fields of a
defaulted or optional shape, building from a tree without the nested key
succeeds: the nested type's `make` on an empty subtree succeeds and `set`
stores the instance so built into the field. -/
theorem nested_tolerant_absent_builds_from_empty
    (n d b sname : String) (sub : FieldList) (inst : Inst) (t : PTree)
    (hall : allTolerant sub = true) (habs : t.findChild n = none) :
    (makeFrom sname sub PTree.empty).isOk = true ∧
    setField (.mk n d b (.nestedCfg sname sub)) inst t
      = (makeFrom sname sub PTree.empty).map (fun i => inst.update n (.nestedVal i)) := by
  obtain ⟨i, hi⟩ := runFields_tolerant_empty sub (defaultInst sub) hall
  have hflag := allTolerant_allDefaultOrOptional sub hall
  constructor
  · simp [makeFrom, hi, wrapInit, Except.isOk, Except.toBool]
  · simp [setField, hflag, habs, makeFrom, hi, wrapInit, Except.map]

/-- Witness for C7: nested type `Inner` with one defaulted field `port`;
the outer tree is empty. -/
theorem nested_tolerant_absent_builds_from_empty_witness :
    (makeFrom "Inner" (.cons (.mk "port" "p" "int" (.withDefault .tInt (.vInt 8080))) .nil)
        PTree.empty).isOk = true ∧
    setField (.mk "inner" "d" "Inner"
          (.nestedCfg "Inner" (.cons (.mk "port" "p" "int" (.withDefault .tInt (.vInt 8080))) .nil)))
        (.cons "inner" (.nestedVal (.cons "port" (.scalar (.vInt 0)) .nil)) .nil)
        (PTree.node "" [])
      = (makeFrom "Inner" (.cons (.mk "port" "p" "int" (.withDefault .tInt (.vInt 8080))) .nil)
          PTree.empty).map
          (fun i => Inst.update (.cons "inner" (.nestedVal (.cons "port" (.scalar (.vInt 0)) .nil)) .nil)
            "inner" (.nestedVal i)) :=
  nested_tolerant_absent_builds_from_empty "inner" "d" "Inner" "Inner"
    (.cons (.mk "port" "p" "int" (.withDefault .tInt (.vInt 8080))) .nil)
    (.cons "inner" (.nestedVal (.cons "port" (.scalar (.vInt 0)) .nil)) .nil)
    (PTree.node "" []) rfl rfl

/-- C8: `describe()` is deterministic.  In this embedding `describeCfg`
is a pure function of the static schema type alone (its name,
description text, and registered descriptor list) — it reads no tree, no
instance and no other state — so two calls on the same schema type yield
byte-identical output. -/
theorem describe_deterministic (s1 s2 : Schema) (h : s1 = s2) :
    describeCfg s1 = describeCfg s2 := congrArg describeCfg h

/-- Witness for C8: two calls on one concrete schema type. -/
theorem describe_deterministic_witness :
    describeCfg ⟨"S", "c", .cons (.mk "host" "h" "string" (.required .tStr)) .nil⟩
      = describeCfg ⟨"S", "c", .cons (.mk "host" "h" "string" (.required .tStr)) .nil⟩ :=
  describe_deterministic
    ⟨"S", "c", .cons (.mk "host" "h" "string" (.required .tStr)) .nil⟩
    ⟨"S", "c", .cons (.mk "host" "h" "string" (.required .tStr)) .nil⟩ rfl

/-- C9: whenever any field descriptor's `set` succeeds, every field other
than the one bound to that descriptor is unchanged in the resulting
instance. -/
theorem setField_frame (f : FieldSpec) (inst inst' : Inst) (t : PTree)
    (h : setField f inst t = .ok inst') (n : String) (hn : n ≠ f.name) :
    inst'.lookup n = inst.lookup n := by
  obtain ⟨m, d, b, k⟩ := f
  replace hn : n ≠ m := by simpa [FieldSpec.name] using hn
  cases k <;> simp only [setField] at h <;> (repeat' split at h) <;>
    first
      | exact Except.noConfusion h
      | (cases h; exact lookup_update_ne _ _ _ _ hn)
      | (cases h; rfl)

/-- Witness for C9: a required field `a` set from a tree, leaving field
`b` unchanged. -/
theorem setField_frame_witness :
    Inst.lookup (.cons "a" (.scalar (.vInt 9)) (.cons "b" (.optScalar none) .nil)) "b"
      = Inst.lookup (.cons "a" (.scalar (.vInt 0)) (.cons "b" (.optScalar none) .nil)) "b" :=
  setField_frame (.mk "a" "d" "int" (.required .tInt))
    (.cons "a" (.scalar (.vInt 0)) (.cons "b" (.optScalar none) .nil))
    (.cons "a" (.scalar (.vInt 9)) (.cons "b" (.optScalar none) .nil))
    (PTree.node "" [("a", PTree.node "9" [])]) rfl "b" (by decide)

/-- C10: the nested-config `set` judges the nested type fully defaultable
by the flag scan `has_default() || is_optional()` over its descriptors
(`allDefaultOrOptional`), and the plain vector descriptor reports
`is_optional() == true`; hence a nested schema that passes the flag scan
while containing a plain vector field is, on an absent key, built from an
empty subtree — and that build fails on the vector field's missing key,
so `set` propagates the failure. -/
theorem nested_flagged_vec_judged_defaultable_fails
    (n d b sname : String) (sub : FieldList) (inst : Inst) (t : PTree)
    (hflag : allDefaultOrOptional sub = true) (hvec : containsVec sub = true)
    (habs : t.findChild n = none) :
    (makeFrom sname sub PTree.empty).isOk = false ∧
    setField (.mk n d b (.nestedCfg sname sub)) inst t = makeFrom sname sub PTree.empty := by
  obtain ⟨e, he⟩ := runFields_flagged_vec_empty sub (defaultInst sub) hflag hvec
  constructor
  · simp [makeFrom, he, wrapInit, Except.isOk, Except.toBool]
  · simp [setField, hflag, habs, makeFrom, he, wrapInit]

/-- Witness for C10: nested type `Inner` whose only field is a plain
vector `ids` (flagged optional), outer tree empty. -/
theorem nested_flagged_vec_judged_defaultable_fails_witness :
    (makeFrom "Inner" (.cons (.mk "ids" "p" "int" (.vec .tInt)) .nil) PTree.empty).isOk
        = false ∧
    setField (.mk "inner" "d" "Inner"
          (.nestedCfg "Inner" (.cons (.mk "ids" "p" "int" (.vec .tInt)) .nil)))
        (.cons "inner" (.nestedVal (.cons "ids" (.vecVal []) .nil)) .nil)
        (PTree.node "" [])
      = makeFrom "Inner" (.cons (.mk "ids" "p" "int" (.vec .tInt)) .nil) PTree.empty :=
  nested_flagged_vec_judged_defaultable_fails "inner" "d" "Inner" "Inner"
    (.cons (.mk "ids" "p" "int" (.vec .tInt)) .nil)
    (.cons "inner" (.nestedVal (.cons "ids" (.vecVal []) .nil)) .nil)
    (PTree.node "" []) rfl rfl rfl

end CVS
